import Mathlib

/-!
Verification of the pyuavcan addressing and node layer.

Part 1: shallow embedding of
`src/pyuavcan/transport/udp/_udp_port_mapping.py`.

Python integers are unbounded, so port numbers are modelled as `Int`.
The `DataSpecifier` class hierarchy (`MessageDataSpecifier`,
`ServiceDataSpecifier`, base class `DataSpecifier`) is modelled as an
inductive with an extra `unrecognized` constructor standing for any other
subclass of the abstract base class, on which the mapper raises
`ValueError` (modelled as `Except.error`).
-/

namespace PyUavcan

/-- The `ServiceDataSpecifier.Role` enumeration: `REQUEST` and `RESPONSE`. -/
inductive Role : Type
  | request
  | response
deriving DecidableEq

/-- The `DataSpecifier` class hierarchy. `message` is `MessageDataSpecifier`
(a subject), `service` is `ServiceDataSpecifier` (service-ID plus role), and
`unrecognized` stands for any other subclass of the abstract base class,
which `map_data_specifier_to_udp_port_number` does not recognize. -/
inductive DataSpecifier : Type
  | message (subject_id : Nat)
  | service (service_id : Nat) (role : Role)
  | unrecognized
deriving DecidableEq

/-- Modelled from the spec: `MessageDataSpecifier` validates
`subject_id ∈ [0, SUBJECT_ID_MAX]` at construction time; the class itself is
not under `src/`.  The numeric value of the mask is pinned by the doctest in
`src/pyuavcan/transport/udp/_udp_port_mapping.py` (lines 28-29), which shows
`map(MessageDataSpecifier(MessageDataSpecifier.SUBJECT_ID_MASK)) = 49151`,
hence `SUBJECT_ID_MASK = 49151 - 16384 = 32767 = 2^15 - 1`. -/
def SUBJECT_ID_MASK : Nat := 32767

/-- Modelled from the spec: `ServiceDataSpecifier` validates
`service_id ∈ [0, SERVICE_ID_MAX]`; the class itself is not under `src/`.
The extreme value `511 = 2^9 - 1` is the one exercised as the boundary
fixture by the doctest in
`src/pyuavcan/transport/udp/_udp_port_mapping.py` (lines 34-37) and by the
spec fixtures (`map(Service(511, Request)) = 15360`). -/
def SERVICE_ID_MASK : Nat := 511

/-- `SUBJECT_ID_OFFSET = 16384` from `_udp_port_mapping.py` line 10. -/
def SUBJECT_ID_OFFSET : Nat := 16384

/-- The `ValueError` raised by the mapper for unsupported data specifiers
(`_udp_port_mapping.py` line 49); the offending specifier is carried in the
message. -/
inductive UdpPortError : Type
  | unsupported (ds : DataSpecifier)
deriving DecidableEq

/-- Shallow embedding of `map_data_specifier_to_udp_port_number`
(`_udp_port_mapping.py` lines 13-49):
for a `MessageDataSpecifier`, `subject_id + SUBJECT_ID_OFFSET`;
for a `ServiceDataSpecifier`, `request = SUBJECT_ID_OFFSET - 2 - service_id * 2`,
returned as-is for the `REQUEST` role and `request + 1` for the `RESPONSE`
role; any other variant raises `ValueError`. -/
def map_data_specifier_to_udp_port_number : DataSpecifier → Except UdpPortError Int
  | .message subject_id => .ok ((subject_id : Int) + (SUBJECT_ID_OFFSET : Int))
  | .service service_id role =>
      let request : Int := (SUBJECT_ID_OFFSET : Int) - 2 - (service_id : Int) * 2
      match role with
      | .request => .ok request
      | .response => .ok (request + 1)
  | ds => .error (.unsupported ds)

/-- The legal domain of data specifiers: a subject with an in-range
subject-ID or a service with an in-range service-ID (per the
construction-time validation of the two concrete classes). -/
def DataSpecifier.legal : DataSpecifier → Prop
  | .message subject_id => subject_id ≤ SUBJECT_ID_MASK
  | .service service_id _ => service_id ≤ SERVICE_ID_MASK
  | .unrecognized => False

instance (ds : DataSpecifier) : Decidable ds.legal := by
  cases ds <;> simp [DataSpecifier.legal] <;> infer_instance

end PyUavcan

namespace PyUavcan

/-- C1: `map_data_specifier_to_udp_port_number` is injective over the full
legal domain of data specifiers: any two distinct legal specifiers (any mix
of Subject and Service variants, any legal IDs and roles) receive different
port numbers; in particular no Subject port ever equals a Service port. -/
theorem map_injective_on_legal_domain
    (d1 d2 : DataSpecifier) (h1 : d1.legal) (h2 : d2.legal) (hne : d1 ≠ d2) :
    map_data_specifier_to_udp_port_number d1 ≠ map_data_specifier_to_udp_port_number d2 := by
  cases d1 with
  | message s1 =>
    cases d2 with
    | message s2 =>
      simp only [map_data_specifier_to_udp_port_number, ne_eq, Except.ok.injEq]
      intro h
      exact hne (by simp only [DataSpecifier.message.injEq]; omega)
    | service q2 r2 =>
      simp only [DataSpecifier.legal, SUBJECT_ID_MASK, SERVICE_ID_MASK] at h1 h2
      cases r2 <;>
        simp only [map_data_specifier_to_udp_port_number, SUBJECT_ID_OFFSET, ne_eq,
          Except.ok.injEq] <;> omega
    | unrecognized => exact absurd h2 (by simp [DataSpecifier.legal])
  | service q1 r1 =>
    cases d2 with
    | message s2 =>
      simp only [DataSpecifier.legal, SUBJECT_ID_MASK, SERVICE_ID_MASK] at h1 h2
      cases r1 <;>
        simp only [map_data_specifier_to_udp_port_number, SUBJECT_ID_OFFSET, ne_eq,
          Except.ok.injEq] <;> omega
    | service q2 r2 =>
      simp only [DataSpecifier.legal, SERVICE_ID_MASK] at h1 h2
      cases r1 <;> cases r2 <;>
          simp only [map_data_specifier_to_udp_port_number, SUBJECT_ID_OFFSET, ne_eq,
            Except.ok.injEq] <;>
        intro h
      case request.request =>
        have hq : q1 = q2 := by omega
        subst hq
        exact hne rfl
      case request.response => omega
      case response.request => omega
      case response.response =>
        have hq : q1 = q2 := by omega
        subst hq
        exact hne rfl
    | unrecognized => exact absurd h2 (by simp [DataSpecifier.legal])
  | unrecognized => exact absurd h1 (by simp [DataSpecifier.legal])

/-- Witness for C1: the legal subject 0 and the legal service (0, REQUEST)
are distinct and receive distinct ports. -/
theorem map_injective_on_legal_domain_witness :
    map_data_specifier_to_udp_port_number (.message 0) ≠
      map_data_specifier_to_udp_port_number (.service 0 .request) :=
  map_injective_on_legal_domain (.message 0) (.service 0 .request)
    (by decide) (by decide) (by decide)

/-- C2: for every legal subject-ID `s`, the mapper returns the port
`s + 16384`; the mapping is strictly increasing in `s`; and subject 0 maps
to port 16384. -/
theorem map_subject_affine_and_increasing :
    (∀ s : Nat, s ≤ SUBJECT_ID_MASK →
      map_data_specifier_to_udp_port_number (.message s) = .ok ((s : Int) + 16384)) ∧
    (∀ s t : Nat, s ≤ SUBJECT_ID_MASK → t ≤ SUBJECT_ID_MASK → s < t →
      ∀ ps pt : Int,
        map_data_specifier_to_udp_port_number (.message s) = .ok ps →
        map_data_specifier_to_udp_port_number (.message t) = .ok pt →
        ps < pt) ∧
    map_data_specifier_to_udp_port_number (.message 0) = .ok 16384 := by
  refine ⟨fun s _ => rfl, fun s t _ _ hst ps pt hs ht => ?_, rfl⟩
  simp only [map_data_specifier_to_udp_port_number, SUBJECT_ID_OFFSET,
    Except.ok.injEq] at hs ht
  omega

/-- Witness for C2: subjects 3 and 7 are legal, subject 3 maps to its port
`3 + 16384`, and the strict-increase part applies to the pair (3, 7). -/
theorem map_subject_affine_and_increasing_witness :
    map_data_specifier_to_udp_port_number (.message 3) = .ok ((3 : Int) + 16384) ∧
      ((3 : Int) + 16384) < ((7 : Int) + 16384) :=
  ⟨map_subject_affine_and_increasing.1 3 (by decide),
   map_subject_affine_and_increasing.2.1 3 7 (by decide) (by decide) (by decide)
     _ _ (map_subject_affine_and_increasing.1 3 (by decide))
     (map_subject_affine_and_increasing.1 7 (by decide))⟩

/-- C3: for every legal service-ID `q`, the REQUEST role maps to the even
port `16384 - 2 - 2*q`, the RESPONSE role maps to the next odd port
(REQUEST + 1), both are strictly decreasing in `q`, and the boundary
fixtures hold: `(0, REQUEST) = 16382`, `(0, RESPONSE) = 16383`,
`(511, REQUEST) = 15360`, `(511, RESPONSE) = 15361`. -/
theorem map_service_ports :
    (∀ q : Nat, q ≤ SERVICE_ID_MASK →
      map_data_specifier_to_udp_port_number (.service q .request) =
          .ok (16384 - 2 - 2 * (q : Int)) ∧
        Even (16384 - 2 - 2 * (q : Int)) ∧
        map_data_specifier_to_udp_port_number (.service q .response) =
          .ok ((16384 - 2 - 2 * (q : Int)) + 1)) ∧
    (∀ q1 q2 : Nat, q1 ≤ SERVICE_ID_MASK → q2 ≤ SERVICE_ID_MASK → q1 < q2 →
      ∀ a1 a2 b1 b2 : Int,
        map_data_specifier_to_udp_port_number (.service q1 .request) = .ok a1 →
        map_data_specifier_to_udp_port_number (.service q2 .request) = .ok a2 →
        map_data_specifier_to_udp_port_number (.service q1 .response) = .ok b1 →
        map_data_specifier_to_udp_port_number (.service q2 .response) = .ok b2 →
        a2 < a1 ∧ b2 < b1) ∧
    map_data_specifier_to_udp_port_number (.service 0 .request) = .ok 16382 ∧
    map_data_specifier_to_udp_port_number (.service 0 .response) = .ok 16383 ∧
    map_data_specifier_to_udp_port_number (.service 511 .request) = .ok 15360 ∧
    map_data_specifier_to_udp_port_number (.service 511 .response) = .ok 15361 := by
  refine ⟨fun q _ => ⟨?_, ⟨8191 - (q : Int), by ring⟩, ?_⟩,
    fun q1 q2 _ _ h12 a1 a2 b1 b2 ha1 ha2 hb1 hb2 => ?_, rfl, rfl, rfl, rfl⟩
  · simp only [map_data_specifier_to_udp_port_number, SUBJECT_ID_OFFSET,
      Except.ok.injEq]
    ring
  · simp only [map_data_specifier_to_udp_port_number, SUBJECT_ID_OFFSET,
      Except.ok.injEq]
    ring
  · simp only [map_data_specifier_to_udp_port_number, SUBJECT_ID_OFFSET,
      Except.ok.injEq] at ha1 ha2 hb1 hb2
    omega

/-- Witness for C3: services 5 and 6 are legal, service 5 gets the even
REQUEST port `16384 - 2 - 2*5` and the adjacent odd RESPONSE port, and the
strict-decrease part applies to the pair (5, 6). -/
theorem map_service_ports_witness :
    (map_data_specifier_to_udp_port_number (.service 5 .request) =
        .ok (16384 - 2 - 2 * ((5 : Nat) : Int)) ∧
      Even (16384 - 2 - 2 * ((5 : Nat) : Int)) ∧
      map_data_specifier_to_udp_port_number (.service 5 .response) =
        .ok ((16384 - 2 - 2 * ((5 : Nat) : Int)) + 1)) ∧
    (16384 - 2 - 2 * ((6 : Nat) : Int) < 16384 - 2 - 2 * ((5 : Nat) : Int) ∧
      (16384 - 2 - 2 * ((6 : Nat) : Int)) + 1 < (16384 - 2 - 2 * ((5 : Nat) : Int)) + 1) :=
  ⟨map_service_ports.1 5 (by decide),
   map_service_ports.2.1 5 6 (by decide) (by decide) (by decide) _ _ _ _
     (map_service_ports.1 5 (by decide)).1
     (map_service_ports.1 6 (by decide)).1
     (map_service_ports.1 5 (by decide)).2.2
     (map_service_ports.1 6 (by decide)).2.2⟩

end PyUavcan

namespace PyUavcan

/-- C4 counterexample: the claim restricts the legal subject range to
[0, 16383] and the port range to [16384, 32767], but subject-ID 32767 is
legal (`SUBJECT_ID_MASK = 2^15 - 1`, pinned by the doctest on lines 28-29
of `_udp_port_mapping.py`) and maps to port 49151, outside [16384, 32767]. -/
theorem subject_range_counterexample :
    DataSpecifier.legal (.message 32767) ∧
      map_data_specifier_to_udp_port_number (.message 32767) = .ok 49151 ∧
      ¬ ((49151 : Int) ≤ 32767) :=
  ⟨by decide, rfl, by decide⟩

/-- C4 amended: subject addresses occupy a contiguous sub-range of size
2^15 starting at BASE = 16384: for every legal subject ID (legal range
[0, 32767], mask 2^15 - 1), the port lies in [16384, 49151], and the
maximum legal subject ID maps to 49151. -/
theorem subject_range_amended :
    (∀ s : Nat, s ≤ SUBJECT_ID_MASK →
      ∃ p : Int, map_data_specifier_to_udp_port_number (.message s) = .ok p ∧
        16384 ≤ p ∧ p ≤ 49151) ∧
    map_data_specifier_to_udp_port_number (.message SUBJECT_ID_MASK) = .ok 49151 := by
  refine ⟨fun s hs => ⟨(s : Int) + 16384, rfl, ?_, ?_⟩, rfl⟩ <;>
    simp only [SUBJECT_ID_MASK] at hs <;> omega

/-- Witness for C4 (amended): subject 3 is legal and its port lies in the
reserved sub-range. -/
theorem subject_range_amended_witness :
    ∃ p : Int, map_data_specifier_to_udp_port_number (.message 3) = .ok p ∧
      16384 ≤ p ∧ p ≤ 49151 :=
  subject_range_amended.1 3 (by decide)

/-- C6: the mapper is total over the recognized variants — every subject
and every service/role pair yields a port without raising — and raises
`ValueError` exactly on a data specifier that is neither variant, the
error being surfaced to the caller as the function's outcome. -/
theorem map_total_and_unsupported :
    (∀ s : Nat, ∃ p : Int,
        map_data_specifier_to_udp_port_number (.message s) = .ok p) ∧
    (∀ (q : Nat) (r : Role), ∃ p : Int,
        map_data_specifier_to_udp_port_number (.service q r) = .ok p) ∧
    (∀ ds : DataSpecifier, (∀ s, ds ≠ .message s) → (∀ q r, ds ≠ .service q r) →
        map_data_specifier_to_udp_port_number ds = .error (.unsupported ds)) := by
  refine ⟨fun s => ⟨_, rfl⟩, fun q r => ?_, fun ds h1 h2 => ?_⟩
  · cases r
    · exact ⟨_, rfl⟩
    · exact ⟨_, rfl⟩
  · cases ds with
    | message s => exact absurd rfl (h1 s)
    | service q r => exact absurd rfl (h2 q r)
    | unrecognized => rfl

/-- Witness for C6: an unrecognized data specifier makes the mapper raise
the unsupported-specifier error. -/
theorem map_total_and_unsupported_witness :
    map_data_specifier_to_udp_port_number .unrecognized =
      .error (.unsupported .unrecognized) :=
  map_total_and_unsupported.2.2 .unrecognized
    (fun s h => nomatch h) (fun q r h => nomatch h)

end PyUavcan

/-!
Part 2: shallow embedding of `src/pyuavcan/application/_node.py`.

The `Node` class holds four private fields assigned in `__init__`
(`_presentation`, `_info`, `_heartbeat_publisher`, `_srv_info`).  The
presentation layer, the info structure, the heartbeat publisher and the
info server are external collaborators; their contents are opaque to
`_node.py`, so they are modelled by type parameters, and the external
methods `_node.py` calls on them are passed in as explicit function
arguments (shallow embedding of dynamic dispatch).  The only piece of
external state `_node.py` reads through is
`self._presentation.transport.local_node_id`, so `Transport` and
`Presentation` are modelled with exactly that field.
-/

namespace PyUavcan

/-- The external `Transport` capability as seen from `_node.py`: the node
reads only `transport.local_node_id`, an optional integer (absent in
anonymous mode). -/
structure Transport : Type where
  local_node_id : Option Nat

/-- The `Presentation` instance owned by the node; `_node.py` reaches
through it only for its `transport` attribute, every other use being an
opaque external method call. -/
structure Presentation : Type where
  transport : Transport

/-- The `Node` class state (`_node.py` lines 50-54): the four private
fields assigned in `__init__`. -/
structure Node (Info HB Srv : Type) : Type where
  _presentation : Presentation
  _info : Info
  _heartbeat_publisher : HB
  _srv_info : Srv

/-- The `presentation` property (`_node.py` lines 56-59). -/
def Node.presentation {Info HB Srv : Type} (n : Node Info HB Srv) : Presentation :=
  n._presentation

/-- The `info` property (`_node.py` lines 61-64). -/
def Node.info {Info HB Srv : Type} (n : Node Info HB Srv) : Info :=
  n._info

/-- The `heartbeat_publisher` property (`_node.py` lines 75-78). -/
def Node.heartbeat_publisher {Info HB Srv : Type} (n : Node Info HB Srv) : HB :=
  n._heartbeat_publisher

/-- The `local_node_id` property (`_node.py` lines 66-69):
`self._presentation.transport.local_node_id`. -/
def Node.local_node_id {Info HB Srv : Type} (n : Node Info HB Srv) : Option Nat :=
  n._presentation.transport.local_node_id

/-- `Node.set_local_node_id` (`_node.py` lines 71-73):
`self._presentation.transport.set_local_node_id(node_id)`.  The
transport's method is external, so it is passed in as `setT`, a state
transition on the transport paired with a result of arbitrary type `R`
(in Python, `None` or a raised error).  The node stores nothing itself:
the transport object mutated in place by the call is reached through the
same `_presentation` reference, which the state-passing translation
renders as updating only that nested component. -/
def Node.set_local_node_id {Info HB Srv R : Type}
    (setT : Transport → Nat → Transport × R)
    (n : Node Info HB Srv) (node_id : Nat) : Node Info HB Srv × R :=
  ({ n with
      _presentation :=
        { n._presentation with
            transport := (setT n._presentation.transport node_id).1 } },
    (setT n._presentation.transport node_id).2)

/-- `Node.make_publisher` (`_node.py` lines 82-85):
`return self._presentation.make_publisher(dtype, subject_id)`; the
presentation-layer method is external and passed in as `m`. -/
def Node.make_publisher {Info HB Srv D P : Type} (m : Presentation → D → Nat → P)
    (n : Node Info HB Srv) (dtype : D) (subject_id : Nat) : P × Node Info HB Srv :=
  (m n._presentation dtype subject_id, n)

/-- `Node.make_publisher_with_fixed_subject_id` (`_node.py` lines 87-90). -/
def Node.make_publisher_with_fixed_subject_id {Info HB Srv D P : Type}
    (m : Presentation → D → P)
    (n : Node Info HB Srv) (dtype : D) : P × Node Info HB Srv :=
  (m n._presentation dtype, n)

/-- `Node.make_subscriber` (`_node.py` lines 94-100):
`return self._presentation.make_subscriber(dtype, subject_id, queue_capacity)`. -/
def Node.make_subscriber {Info HB Srv D S : Type}
    (m : Presentation → D → Nat → Option Nat → S)
    (n : Node Info HB Srv) (dtype : D) (subject_id : Nat)
    (queue_capacity : Option Nat) : S × Node Info HB Srv :=
  (m n._presentation dtype subject_id queue_capacity, n)

/-- `Node.make_subscriber_with_fixed_subject_id` (`_node.py` lines 102-107). -/
def Node.make_subscriber_with_fixed_subject_id {Info HB Srv D S : Type}
    (m : Presentation → D → Option Nat → S)
    (n : Node Info HB Srv) (dtype : D) (queue_capacity : Option Nat) :
    S × Node Info HB Srv :=
  (m n._presentation dtype queue_capacity, n)

/-- `Node.make_client` (`_node.py` lines 111-116):
`return self._presentation.make_client(dtype, service_id, server_node_id)`. -/
def Node.make_client {Info HB Srv D C : Type}
    (m : Presentation → D → Nat → Nat → C)
    (n : Node Info HB Srv) (dtype : D) (service_id : Nat)
    (server_node_id : Nat) : C × Node Info HB Srv :=
  (m n._presentation dtype service_id server_node_id, n)

/-- `Node.make_client_with_fixed_service_id` (`_node.py` lines 118-121). -/
def Node.make_client_with_fixed_service_id {Info HB Srv D C : Type}
    (m : Presentation → D → Nat → C)
    (n : Node Info HB Srv) (dtype : D) (server_node_id : Nat) :
    C × Node Info HB Srv :=
  (m n._presentation dtype server_node_id, n)

/-- `Node.get_server` (`_node.py` lines 125-128):
`return self._presentation.get_server(dtype, service_id)`. -/
def Node.get_server {Info HB Srv D Sv : Type}
    (m : Presentation → D → Nat → Sv)
    (n : Node Info HB Srv) (dtype : D) (service_id : Nat) :
    Sv × Node Info HB Srv :=
  (m n._presentation dtype service_id, n)

/-- `Node.get_server_with_fixed_service_id` (`_node.py` lines 130-133). -/
def Node.get_server_with_fixed_service_id {Info HB Srv D Sv : Type}
    (m : Presentation → D → Sv)
    (n : Node Info HB Srv) (dtype : D) : Sv × Node Info HB Srv :=
  (m n._presentation dtype, n)

/-- `Node._handle_get_info_request` (`_node.py` lines 147-151): logs the
request at debug level (an effect on the external logger only, touching no
node field) and returns `self._info`.  The state-passing translation
returns the node unchanged alongside the result. -/
def Node._handle_get_info_request {Info HB Srv Req Meta : Type}
    (n : Node Info HB Srv) (request : Req) (metadata : Meta) :
    Info × Node Info HB Srv :=
  (n._info, n)

/-- The three owned resources whose `close` methods `Node.close` invokes
(`_node.py` lines 141-145). -/
inductive OwnedResource : Type
  | heartbeat_publisher
  | srv_info
  | presentation
deriving DecidableEq

/-- Failure behavior of the three external `close` calls inside
`Node.close`: `none` means the call returns normally, `some e` means it
raises the exception `e`. -/
structure CloseBehavior : Type where
  heartbeat_error : Option Nat
  srv_info_error : Option Nat
  presentation_error : Option Nat

/-- Shallow embedding of `Node.close` (`_node.py` lines 137-145):
`try: self._heartbeat_publisher.close(); self._srv_info.close()
finally: self._presentation.close()`.  Given the failure behavior of the
three sub-closes, it returns the list of close calls attempted, in order,
and the exception propagated to the caller (`none` = normal return).
Per Python semantics: if the heartbeat close raises, the info-server
close in the same `try` block is not reached; the `finally` block always
runs the presentation close; an exception raised in the `finally` block
replaces any pending exception from the `try` block. -/
def Node.close (b : CloseBehavior) : List OwnedResource × Option Nat :=
  let tryPart : List OwnedResource × Option Nat :=
    match b.heartbeat_error with
    | some e => ([.heartbeat_publisher], some e)
    | none =>
      match b.srv_info_error with
      | some e => ([.heartbeat_publisher, .srv_info], some e)
      | none => ([.heartbeat_publisher, .srv_info], none)
  (tryPart.1 ++ [.presentation],
    match b.presentation_error with
    | some e => some e
    | none => tryPart.2)

end PyUavcan

namespace PyUavcan

/-- C5 counterexample: with a failure behavior where only the heartbeat
publisher's close raises, `Node.close` attempts the heartbeat close and
the presentation close but never attempts the info server's close — so it
does not attempt to close all three when one close fails, as the claim
states. -/
theorem close_counterexample :
    (Node.close ⟨some 0, none, none⟩).1 =
        [OwnedResource.heartbeat_publisher, OwnedResource.presentation] ∧
      OwnedResource.srv_info ∉ (Node.close ⟨some 0, none, none⟩).1 ∧
      OwnedResource.presentation ∈ (Node.close ⟨some 0, none, none⟩).1 ∧
      (Node.close ⟨some 0, none, none⟩).2 = some 0 := by
  decide

/-- C5 amended: `Node.close` closes the heartbeat publisher first, then
(only if the heartbeat close succeeded) the info server, and always
attempts the presentation (Transport) close last, even when an earlier
close fails — in particular the Transport close still runs when the
heartbeat publisher's close fails; the surfaced failure is the
presentation close's own failure if it raises, otherwise the first
failure of the earlier closes. -/
theorem close_order_and_error_surfacing (b : CloseBehavior) :
    (Node.close b).1.head? = some OwnedResource.heartbeat_publisher ∧
      (Node.close b).1.getLast? = some OwnedResource.presentation ∧
      OwnedResource.presentation ∈ (Node.close b).1 ∧
      (OwnedResource.srv_info ∈ (Node.close b).1 ↔ b.heartbeat_error = none) ∧
      (Node.close b).2 = (match b.presentation_error with
        | some e => some e
        | none => match b.heartbeat_error with
          | some e => some e
          | none => b.srv_info_error) := by
  obtain ⟨hb, srv, pres⟩ := b
  cases hb <;> cases srv <;> cases pres <;>
    simp [Node.close, List.getLast?]

/-- C7: the GetInfo request handler returns exactly the info structure
stored at construction, unmodified — the returned value is
propositionally equal to the stored `_info` field — and handling a
request leaves every node field unchanged. -/
theorem handle_get_info_returns_stored_info {Info HB Srv Req Meta : Type}
    (n : Node Info HB Srv) (request : Req) (metadata : Meta) :
    (Node._handle_get_info_request n request metadata).1 = n._info ∧
      (Node._handle_get_info_request n request metadata).2 = n :=
  ⟨rfl, rfl⟩

/-- C8: `Node.local_node_id` is a pure pass-through view of the
transport's identifier (possibly `none` in anonymous mode), and
`Node.set_local_node_id` delegates to the transport's method for any
implementation `setT` of it: the returned result and the new transport
state are exactly those produced by `setT`, while the node's own `_info`,
`_heartbeat_publisher` and `_srv_info` fields are untouched. -/
theorem local_node_id_pass_through {Info HB Srv R : Type}
    (n : Node Info HB Srv) (setT : Transport → Nat → Transport × R) (v : Nat) :
    Node.local_node_id n = n._presentation.transport.local_node_id ∧
      (Node.set_local_node_id setT n v).2 = (setT n._presentation.transport v).2 ∧
      (Node.set_local_node_id setT n v).1._presentation.transport =
        (setT n._presentation.transport v).1 ∧
      (Node.set_local_node_id setT n v).1._info = n._info ∧
      (Node.set_local_node_id setT n v).1._heartbeat_publisher =
        n._heartbeat_publisher ∧
      (Node.set_local_node_id setT n v).1._srv_info = n._srv_info :=
  ⟨rfl, rfl, rfl, rfl, rfl, rfl⟩

/-- C9: the GetInfo handler's response is independent of its inputs — two
invocations on the same node with arbitrary (even differently typed)
request payloads and request metadata return the identical info
structure. -/
theorem handle_get_info_noninterference {Info HB Srv Req1 Meta1 Req2 Meta2 : Type}
    (n : Node Info HB Srv) (r1 : Req1) (m1 : Meta1) (r2 : Req2) (m2 : Meta2) :
    (Node._handle_get_info_request n r1 m1).1 =
      (Node._handle_get_info_request n r2 m2).1 :=
  rfl

/-- C10: every factory method of `Node` and the `presentation`, `info`
and `heartbeat_publisher` accessors purely delegate to the presentation
layer (or read a field) and return its result, leaving the node — all
four fields `_presentation`, `_info`, `_heartbeat_publisher`,
`_srv_info` — unchanged, for any external presentation-layer method
implementations. -/
theorem factories_delegate_and_preserve_node
    {Info HB Srv D1 D2 D3 D4 D5 D6 D7 D8 P1 P2 S1 S2 C1 C2 V1 V2 : Type}
    (n : Node Info HB Srv)
    (mp : Presentation → D1 → Nat → P1) (d1 : D1) (sid1 : Nat)
    (mpf : Presentation → D2 → P2) (d2 : D2)
    (ms : Presentation → D3 → Nat → Option Nat → S1) (d3 : D3) (sid3 : Nat)
    (qc3 : Option Nat)
    (msf : Presentation → D4 → Option Nat → S2) (d4 : D4) (qc4 : Option Nat)
    (mc : Presentation → D5 → Nat → Nat → C1) (d5 : D5) (svc5 : Nat) (nid5 : Nat)
    (mcf : Presentation → D6 → Nat → C2) (d6 : D6) (nid6 : Nat)
    (gs : Presentation → D7 → Nat → V1) (d7 : D7) (svc7 : Nat)
    (gsf : Presentation → D8 → V2) (d8 : D8) :
    Node.make_publisher mp n d1 sid1 = (mp n._presentation d1 sid1, n) ∧
      Node.make_publisher_with_fixed_subject_id mpf n d2 =
        (mpf n._presentation d2, n) ∧
      Node.make_subscriber ms n d3 sid3 qc3 =
        (ms n._presentation d3 sid3 qc3, n) ∧
      Node.make_subscriber_with_fixed_subject_id msf n d4 qc4 =
        (msf n._presentation d4 qc4, n) ∧
      Node.make_client mc n d5 svc5 nid5 =
        (mc n._presentation d5 svc5 nid5, n) ∧
      Node.make_client_with_fixed_service_id mcf n d6 nid6 =
        (mcf n._presentation d6 nid6, n) ∧
      Node.get_server gs n d7 svc7 = (gs n._presentation d7 svc7, n) ∧
      Node.get_server_with_fixed_service_id gsf n d8 =
        (gsf n._presentation d8, n) ∧
      Node.presentation n = n._presentation ∧
      Node.info n = n._info ∧
      Node.heartbeat_publisher n = n._heartbeat_publisher :=
  ⟨rfl, rfl, rfl, rfl, rfl, rfl, rfl, rfl, rfl, rfl, rfl⟩

end PyUavcan
